import Mathlib

/-!
Verification of the instructure-ui component library fragments:
the Table.Row theme generator, the NumberInput prop contract, and the
Tabs.Panel rendering contract.

The embedding follows the TypeScript sources.  JavaScript values that may
be `undefined` are modelled as `Option String`; an object-spread override
whose key may itself be absent is modelled as `Option (Option String)`
(outer layer: is the key present in the override object; inner layer: the
possibly-undefined value stored under it), because in JavaScript
`{...a, ...b}` lets a key of `b` holding `undefined` overwrite the value
from `a`.
-/

/-- The typography token group of a theme (fields reached by optional
chaining in the source, hence possibly undefined). -/
structure Typography where
  fontSizeMedium : Option String
  fontFamily : Option String
  fontWeightNormal : Option String
deriving Repr, DecidableEq

/-- The color contrast token group of a theme. -/
structure Contrasts where
  grey125125 : Option String
  white1010 : Option String
  grey1214 : Option String
  blue4570 : Option String
deriving Repr, DecidableEq

/-- The colors token group, which may or may not carry a contrasts
sub-object. -/
structure Colors where
  contrasts : Option Contrasts
deriving Repr, DecidableEq

/-- The spacing token group of a theme. -/
structure Spacing where
  xSmall : Option String
deriving Repr, DecidableEq

/-- A global theme object, as consumed by generateComponentTheme:
a key (the theme name), three optional token groups, and the
ic-brand-primary entry (written icBrandPrimary here). -/
structure Theme where
  key : String
  colors : Option Colors
  typography : Option Typography
  spacing : Option Spacing
  icBrandPrimary : Option String
deriving Repr, DecidableEq

/-- The component theme for Table.Row (TableRowTheme in shared-types).
Every field is a JavaScript value that may end up undefined. -/
structure TableRowTheme where
  fontSize : Option String
  fontFamily : Option String
  fontWeight : Option String
  color : Option String
  background : Option String
  borderColor : Option String
  hoverBorderColor : Option String
  padding : Option String
deriving Repr, DecidableEq

/-- A partial override object over TableRowTheme, as stored in
themeSpecificStyle.  The outer Option records whether the key is present
in the override object at all; the inner Option is the possibly-undefined
value stored under the key. -/
structure TableRowOverride where
  fontSize : Option (Option String) := none
  fontFamily : Option (Option String) := none
  fontWeight : Option (Option String) := none
  color : Option (Option String) := none
  background : Option (Option String) := none
  borderColor : Option (Option String) := none
  hoverBorderColor : Option (Option String) := none
  padding : Option (Option String) := none
deriving Repr, DecidableEq

/-- JavaScript template-literal interpolation of a possibly-undefined
string: interpolating undefined yields the text "undefined". -/
def jsInterp : Option String → String
  | some s => s
  | none => "undefined"

/-- The themeSpecificStyle map of Table/Row/theme.ts: only the theme named
canvas has an override, and that override presents exactly the
hoverBorderColor key, bound to the possibly-undefined ic-brand-primary
entry of the theme. -/
def themeSpecificStyle (theme : Theme) (name : String) : Option TableRowOverride :=
  if name = "canvas" then some { hoverBorderColor := some theme.icBrandPrimary } else none

/-- The componentVariables object of Table/Row/theme.ts, with every token
access guarded by optional chaining, and padding built by a template
literal from the xSmall spacing token. -/
def componentVariables (theme : Theme) : TableRowTheme where
  fontSize := theme.typography.bind Typography.fontSizeMedium
  fontFamily := theme.typography.bind Typography.fontFamily
  fontWeight := theme.typography.bind Typography.fontWeightNormal
  color := (theme.colors.bind Colors.contrasts).bind Contrasts.grey125125
  background := (theme.colors.bind Colors.contrasts).bind Contrasts.white1010
  borderColor := (theme.colors.bind Colors.contrasts).bind Contrasts.grey1214
  hoverBorderColor := (theme.colors.bind Colors.contrasts).bind Contrasts.blue4570
  padding := some (jsInterp (theme.spacing.bind Spacing.xSmall) ++ " 0")

/-- The object spread of the source return statement: spreading an
undefined override is a no-op, while a present override key overwrites the
base value even when the value it holds is undefined. -/
def spreadMerge (base : TableRowTheme) (ov : Option TableRowOverride) : TableRowTheme :=
  match ov with
  | none => base
  | some o =>
    { fontSize := o.fontSize.getD base.fontSize
      fontFamily := o.fontFamily.getD base.fontFamily
      fontWeight := o.fontWeight.getD base.fontWeight
      color := o.color.getD base.color
      background := o.background.getD base.background
      borderColor := o.borderColor.getD base.borderColor
      hoverBorderColor := o.hoverBorderColor.getD base.hoverBorderColor
      padding := o.padding.getD base.padding }

/-- generateComponentTheme of Table/Row/theme.ts: the spread of the base
component variables with the theme-name-keyed override. -/
def generateComponentTheme (theme : Theme) : TableRowTheme :=
  spreadMerge (componentVariables theme) (themeSpecificStyle theme theme.key)

/-- A PropTypes validator, as composed in NumberInput/props.ts. -/
inductive Validator where
  | string
  | bool
  | func
  | node
  | number
  | oneOf (choices : List String)
  | oneOfType (alternatives : List Validator)
  | arrayOf (element : Validator)
  | isRequired (inner : Validator)
  | formMessage

mutual

/-- Whether a validator accepts a supplied string value.  Strings satisfy
PropTypes.string and PropTypes.node (a string is a valid React node) but
not bool, func, number, arrayOf or the FormPropTypes message shape;
oneOf accepts exactly the listed literals; oneOfType accepts when some
alternative does; isRequired defers to the inner validator once a value
is actually supplied. -/
def acceptsString : Validator → String → Bool
  | .string, _ => true
  | .bool, _ => false
  | .func, _ => false
  | .node, _ => true
  | .number, _ => false
  | .oneOf choices, s => choices.contains s
  | .oneOfType alternatives, s => anyAcceptsString alternatives s
  | .arrayOf _, _ => false
  | .isRequired inner, s => acceptsString inner s
  | .formMessage, _ => false

/-- Whether some validator in a list accepts the supplied string value. -/
def anyAcceptsString : List Validator → String → Bool
  | [], _ => false
  | v :: vs, s => acceptsString v s || anyAcceptsString vs s

end

/-- The propTypes mapping of NumberInput/props.ts, one entry per declared
prop key, in source order. -/
def propTypes : List (String × Validator) :=
  [ ("renderLabel", .isRequired (.oneOfType [.node, .func])),
    ("id", .string),
    ("interaction", .oneOf ["enabled", "disabled", "readonly"]),
    ("messages", .arrayOf .formMessage),
    ("placeholder", .string),
    ("isRequired", .bool),
    ("showArrows", .bool),
    ("size", .oneOf ["medium", "large"]),
    ("value", .oneOfType [.string, .number]),
    ("width", .string),
    ("display", .oneOf ["inline-block", "block"]),
    ("inputRef", .func),
    ("onFocus", .func),
    ("onBlur", .func),
    ("onChange", .func),
    ("onDecrement", .func),
    ("onIncrement", .func),
    ("onKeyDown", .func),
    ("inputMode", .oneOf ["numeric", "decimal", "tel"]),
    ("textAlign", .oneOf ["start", "center"]) ]

/-- The allowedProps list of NumberInput/props.ts, in source order. -/
def allowedProps : List String :=
  [ "renderLabel", "id", "interaction", "messages", "placeholder",
    "isRequired", "showArrows", "size", "value", "width", "display",
    "inputRef", "onFocus", "onBlur", "onChange", "onDecrement",
    "onIncrement", "onKeyDown", "inputMode", "textAlign" ]

/-- The validator registered for a prop key, when one exists. -/
def validatorFor (key : String) : Option Validator :=
  propTypes.lookup key

/-- Whether the validator registered under a key accepts a supplied
string value (false when no validator is registered for the key). -/
def validatorAccepts (key s : String) : Bool :=
  match validatorFor key with
  | some v => acceptsString v s
  | none => false

/-- A rendered DOM container, reduced to the two observations the Panel
tests make: the role attribute and the text content. -/
structure RenderedElement where
  role : String
  textContent : String
deriving Repr, DecidableEq

/-- Modelled from the spec: the Tabs.Panel renderer (the component source
packages/ui-tabs/src/Tabs/Panel/index.tsx is not among the provided
sources; only its test is).  Per the spec, the panel renders its children
inside a container carrying the role attribute tabpanel, the content
being the children when the panel is selected. -/
def renderPanel (isSelected : Bool) (children : String) : RenderedElement :=
  { role := "tabpanel"
    textContent := if isSelected then children else "" }

/-- The contrast tokens shared by the concrete sample themes below. -/
def sampleContrasts : Contrasts where
  grey125125 := some "#2D3B45"
  white1010 := some "#FFFFFF"
  grey1214 := some "#C7CDD1"
  blue4570 := some "#2B7ABC"

/-- The typography tokens shared by the concrete sample themes below. -/
def sampleTypography : Typography where
  fontSizeMedium := some "1rem"
  fontFamily := some "LatoWeb"
  fontWeightNormal := some "400"

/-- The spacing tokens shared by the concrete sample themes below. -/
def sampleSpacing : Spacing where
  xSmall := some "0.5rem"

/-- A fully populated sample theme whose key is not canvas. -/
def sampleTheme : Theme where
  key := "test"
  colors := some ⟨some sampleContrasts⟩
  typography := some sampleTypography
  spacing := some sampleSpacing
  icBrandPrimary := none

/-- A fully populated theme whose key is canvas, carrying an
ic-brand-primary entry distinct from the default blue4570 contrast. -/
def canvasTheme : Theme where
  key := "canvas"
  colors := some ⟨some sampleContrasts⟩
  typography := some sampleTypography
  spacing := some sampleSpacing
  icBrandPrimary := some "#0374B5"

/-- A fully populated theme whose key is canvas but whose
ic-brand-primary entry is absent. -/
def canvasNoBrand : Theme where
  key := "canvas"
  colors := some ⟨some sampleContrasts⟩
  typography := some sampleTypography
  spacing := some sampleSpacing
  icBrandPrimary := none

/-- A theme with every optional sub-object absent. -/
def emptyTheme : Theme where
  key := "test"
  colors := none
  typography := none
  spacing := none
  icBrandPrimary := none

/-- Whether every field of a component theme holds a defined value. -/
def TableRowTheme.allDefined (t : TableRowTheme) : Bool :=
  t.fontSize.isSome && t.fontFamily.isSome && t.fontWeight.isSome &&
  t.color.isSome && t.background.isSome && t.borderColor.isSome &&
  t.hoverBorderColor.isSome && t.padding.isSome

/-- C1 (counterexample): on a fully populated theme whose xSmall spacing
token is "0.5rem" the generated padding is "0.5rem 0", the token followed
by " 0", so the generated padding does not equal the source spacing token
itself. -/
theorem c1_padding_not_bare_token :
    (generateComponentTheme sampleTheme).padding = some "0.5rem 0" ∧
    sampleTheme.spacing.bind Spacing.xSmall = some "0.5rem" ∧
    (generateComponentTheme sampleTheme).padding ≠
      sampleTheme.spacing.bind Spacing.xSmall := by
  decide

/-- C1 (amended): for every theme whose typography, color and spacing token
groups are present, the generated component theme's fontSize equals the
typography fontSizeMedium token, fontFamily equals the typography
fontFamily token, and padding equals the xSmall spacing token followed by
" 0". -/
theorem c1_tokens_from_theme (theme : Theme) (ty : Typography) (c : Colors)
    (sp : Spacing) (x : String)
    (hty : theme.typography = some ty) (hc : theme.colors = some c)
    (hsp : theme.spacing = some sp) (hx : sp.xSmall = some x) :
    (generateComponentTheme theme).fontSize = ty.fontSizeMedium ∧
    (generateComponentTheme theme).fontFamily = ty.fontFamily ∧
    (generateComponentTheme theme).padding = some (x ++ " 0") := by
  unfold generateComponentTheme spreadMerge themeSpecificStyle
  by_cases hk : theme.key = "canvas" <;>
    simp [hk, componentVariables, hty, hsp, hx, jsInterp]

/-- C1 (witness): the amended statement evaluated on the concrete sample
theme. -/
theorem c1_tokens_from_theme_witness :
    (generateComponentTheme sampleTheme).fontSize = some "1rem" ∧
    (generateComponentTheme sampleTheme).fontFamily = some "LatoWeb" ∧
    (generateComponentTheme sampleTheme).padding = some "0.5rem 0" :=
  c1_tokens_from_theme sampleTheme sampleTypography ⟨some sampleContrasts⟩
    sampleSpacing "0.5rem" rfl rfl rfl rfl

/-- C2: for every theme whose key is canvas, the generated hoverBorderColor
equals the ic-brand-primary entry of the theme, and therefore differs from
the default blue4570 contrast whenever the two values differ. -/
theorem c2_canvas_hover_override (theme : Theme) (hk : theme.key = "canvas") :
    (generateComponentTheme theme).hoverBorderColor = theme.icBrandPrimary ∧
    (theme.icBrandPrimary ≠ (theme.colors.bind Colors.contrasts).bind Contrasts.blue4570 →
      (generateComponentTheme theme).hoverBorderColor ≠
        (theme.colors.bind Colors.contrasts).bind Contrasts.blue4570) := by
  have h : (generateComponentTheme theme).hoverBorderColor = theme.icBrandPrimary := by
    unfold generateComponentTheme spreadMerge themeSpecificStyle
    simp [hk]
  exact ⟨h, fun hne => h ▸ hne⟩

/-- C2 (witness): on the concrete canvas theme the override wins over the
default blue4570 contrast. -/
theorem c2_canvas_hover_override_witness :
    (generateComponentTheme canvasTheme).hoverBorderColor = canvasTheme.icBrandPrimary ∧
    (canvasTheme.icBrandPrimary ≠
        (canvasTheme.colors.bind Colors.contrasts).bind Contrasts.blue4570 →
      (generateComponentTheme canvasTheme).hoverBorderColor ≠
        (canvasTheme.colors.bind Colors.contrasts).bind Contrasts.blue4570) :=
  c2_canvas_hover_override canvasTheme rfl

/-- C3: for every theme whose key is not canvas no override is registered,
and the generated component theme equals the base componentVariables
mapping exactly. -/
theorem c3_non_canvas_identity (theme : Theme) (hk : theme.key ≠ "canvas") :
    generateComponentTheme theme = componentVariables theme := by
  unfold generateComponentTheme spreadMerge themeSpecificStyle
  simp [hk]

/-- C3 (witness): the identity evaluated on the concrete sample theme,
whose key is "test". -/
theorem c3_non_canvas_identity_witness :
    generateComponentTheme sampleTheme = componentVariables sampleTheme :=
  c3_non_canvas_identity sampleTheme (by decide)

/-- C4 (counterexample): on the theme with every token group absent the
generated component theme does not have every referenced key defined; in
particular fontSize is undefined. -/
theorem c4_unresolved_on_empty_theme :
    (generateComponentTheme emptyTheme).allDefined = false ∧
    (generateComponentTheme emptyTheme).fontSize = none := by
  decide

/-- C4 (amended): for every theme whose typography, contrast and spacing
token groups are present with every referenced leaf token defined, and
whose ic-brand-primary entry is defined whenever the key is canvas, every
referenced key of the generated component theme holds a defined value. -/
theorem c4_all_keys_resolved (theme : Theme) (ty : Typography)
    (c : Contrasts) (sp : Spacing)
    (hty : theme.typography = some ty)
    (hc : theme.colors.bind Colors.contrasts = some c)
    (hsp : theme.spacing = some sp)
    (h1 : ty.fontSizeMedium.isSome = true) (h2 : ty.fontFamily.isSome = true)
    (h3 : ty.fontWeightNormal.isSome = true)
    (h4 : c.grey125125.isSome = true) (h5 : c.white1010.isSome = true)
    (h6 : c.grey1214.isSome = true) (h7 : c.blue4570.isSome = true)
    (hbrand : theme.key = "canvas" → theme.icBrandPrimary.isSome = true) :
    (generateComponentTheme theme).allDefined = true := by
  unfold generateComponentTheme spreadMerge themeSpecificStyle TableRowTheme.allDefined
  by_cases hk : theme.key = "canvas"
  · simp [hk, componentVariables, hty, hc, hsp, h1, h2, h3, h4, h5, h6, hbrand hk]
  · simp [hk, componentVariables, hty, hc, hsp, h1, h2, h3, h4, h5, h6, h7]

/-- C4 (witness): the amended statement evaluated on the concrete canvas
theme. -/
theorem c4_all_keys_resolved_witness :
    (generateComponentTheme canvasTheme).allDefined = true :=
  c4_all_keys_resolved canvasTheme sampleTypography sampleContrasts sampleSpacing
    rfl rfl rfl rfl rfl rfl rfl rfl rfl rfl (fun _ => rfl)

/-- C5: the size validator of the NumberInput propTypes accepts a supplied
string value exactly when it is "medium" or "large", and the inputMode
validator accepts a supplied string value exactly when it is "numeric",
"decimal" or "tel". -/
theorem c5_enum_validators (s : String) :
    (validatorAccepts "size" s = true ↔ s = "medium" ∨ s = "large") ∧
    (validatorAccepts "inputMode" s = true ↔
      s = "numeric" ∨ s = "decimal" ∨ s = "tel") := by
  have h1 : validatorAccepts "size" s =
      acceptsString (Validator.oneOf ["medium", "large"]) s := rfl
  have h2 : validatorAccepts "inputMode" s =
      acceptsString (Validator.oneOf ["numeric", "decimal", "tel"]) s := rfl
  rw [h1, h2]
  constructor <;> simp [acceptsString]

/-- C6: the key set of the propTypes mapping coincides with the
allowedProps list: a key has a registered validator exactly when it is an
allowed prop. -/
theorem c6_keys_coincide (k : String) :
    k ∈ propTypes.map Prod.fst ↔ k ∈ allowedProps := by
  have h : propTypes.map Prod.fst = allowedProps := rfl
  rw [h]

/-- C7: generateComponentTheme is deterministic: two calls on equal theme
objects return equal component themes.  The embedding is a pure function
over an immutable theme value, mirroring the source, which only reads the
input and builds fresh objects. -/
theorem c7_deterministic (t1 t2 : Theme) (h : t1 = t2) :
    generateComponentTheme t1 = generateComponentTheme t2 := by
  rw [h]

/-- C7 (witness): determinism evaluated at the concrete sample theme. -/
theorem c7_deterministic_witness :
    generateComponentTheme sampleTheme = generateComponentTheme sampleTheme :=
  c7_deterministic sampleTheme sampleTheme rfl

/-- C8: a panel rendered as selected carries the role attribute tabpanel
and its text content equals the children text (panel renderer modelled
from the spec; only its test is among the sources). -/
theorem c8_panel_role_and_text (children : String) :
    (renderPanel true children).role = "tabpanel" ∧
    (renderPanel true children).textContent = children :=
  ⟨rfl, rfl⟩

/-- C9 (counterexample): on the theme with spacing absent the generated
padding is not undefined: the template literal stringifies the undefined
token, yielding the defined string "undefined 0". -/
theorem c9_padding_defined_on_empty :
    emptyTheme.spacing = none ∧
    (generateComponentTheme emptyTheme).padding = some "undefined 0" ∧
    (generateComponentTheme emptyTheme).padding ≠ none := by
  decide

/-- C9 (amended): generateComponentTheme is total over partial themes; with
typography, colors, spacing and ic-brand-primary all absent every
typography- and color-derived field is undefined, while padding is the
defined string "undefined 0". -/
theorem c9_partial_theme_fields (theme : Theme)
    (hty : theme.typography = none) (hc : theme.colors = none)
    (hsp : theme.spacing = none) (hbrand : theme.icBrandPrimary = none) :
    (generateComponentTheme theme).fontSize = none ∧
    (generateComponentTheme theme).fontFamily = none ∧
    (generateComponentTheme theme).fontWeight = none ∧
    (generateComponentTheme theme).color = none ∧
    (generateComponentTheme theme).background = none ∧
    (generateComponentTheme theme).borderColor = none ∧
    (generateComponentTheme theme).hoverBorderColor = none ∧
    (generateComponentTheme theme).padding = some "undefined 0" := by
  unfold generateComponentTheme spreadMerge themeSpecificStyle
  by_cases hk : theme.key = "canvas" <;>
    simp [hk, componentVariables, hty, hc, hsp, hbrand, jsInterp]

/-- C9 (witness): the amended statement evaluated on the empty theme. -/
theorem c9_partial_theme_fields_witness :
    (generateComponentTheme emptyTheme).fontSize = none ∧
    (generateComponentTheme emptyTheme).fontFamily = none ∧
    (generateComponentTheme emptyTheme).fontWeight = none ∧
    (generateComponentTheme emptyTheme).color = none ∧
    (generateComponentTheme emptyTheme).background = none ∧
    (generateComponentTheme emptyTheme).borderColor = none ∧
    (generateComponentTheme emptyTheme).hoverBorderColor = none ∧
    (generateComponentTheme emptyTheme).padding = some "undefined 0" :=
  c9_partial_theme_fields emptyTheme rfl rfl rfl rfl

/-- C10: for a theme whose key is canvas but whose ic-brand-primary entry
is absent the spread still applies the override: hoverBorderColor is
undefined rather than the default blue4570 contrast, and every other
field equals the base componentVariables value. -/
theorem c10_canvas_missing_brand (theme : Theme)
    (hk : theme.key = "canvas") (hb : theme.icBrandPrimary = none) :
    (generateComponentTheme theme).hoverBorderColor = none ∧
    (generateComponentTheme theme).fontSize = (componentVariables theme).fontSize ∧
    (generateComponentTheme theme).fontFamily = (componentVariables theme).fontFamily ∧
    (generateComponentTheme theme).fontWeight = (componentVariables theme).fontWeight ∧
    (generateComponentTheme theme).color = (componentVariables theme).color ∧
    (generateComponentTheme theme).background = (componentVariables theme).background ∧
    (generateComponentTheme theme).borderColor = (componentVariables theme).borderColor ∧
    (generateComponentTheme theme).padding = (componentVariables theme).padding := by
  unfold generateComponentTheme spreadMerge themeSpecificStyle
  simp [hk, hb]

/-- C10 (witness): the statement evaluated on the concrete canvas theme
without an ic-brand-primary entry. -/
theorem c10_canvas_missing_brand_witness :
    (generateComponentTheme canvasNoBrand).hoverBorderColor = none ∧
    (generateComponentTheme canvasNoBrand).fontSize = (componentVariables canvasNoBrand).fontSize ∧
    (generateComponentTheme canvasNoBrand).fontFamily = (componentVariables canvasNoBrand).fontFamily ∧
    (generateComponentTheme canvasNoBrand).fontWeight = (componentVariables canvasNoBrand).fontWeight ∧
    (generateComponentTheme canvasNoBrand).color = (componentVariables canvasNoBrand).color ∧
    (generateComponentTheme canvasNoBrand).background = (componentVariables canvasNoBrand).background ∧
    (generateComponentTheme canvasNoBrand).borderColor = (componentVariables canvasNoBrand).borderColor ∧
    (generateComponentTheme canvasNoBrand).padding = (componentVariables canvasNoBrand).padding :=
  c10_canvas_missing_brand canvasNoBrand rfl rfl
